import Mathlib

/-!
Shallow embedding of `src/custom_code/major_disaster_analysis.py`.

Dataframes are lists of rows; a cell that can hold NaN is an `Option Int`
(`none` = NaN/missing).  The pandas operations the module uses are embedded
as list functions with pandas semantics:

* boolean-mask filtering (`df[mask]`): `List.filter`, where a comparison
  against a NaN cell is `false`;
* `pd.merge(..., how='left')` on keys: for every left row, one output row
  per matching right row, or a single NaN-padded row when nothing matches
  (pandas matches NaN keys to NaN keys, which `Option` equality mirrors);
* `groupby(k)` followed by `sum()` / `count()`: group keys are the distinct
  key values in first-occurrence order; `sum` adds the non-missing values of
  the column (an all-missing group sums to 0, pandas `min_count=0`), `count`
  counts the non-missing values;
* `.fillna(0)`: replace a missing aggregate cell by 0;
* `.sort_values(col, ascending=False).iloc[:10]`: sort descending by the
  column (tie order is unspecified in pandas; we use insertion sort) and
  take the first 10 rows.
-/

/-- One row of the natural-disaster dataframe.  `iso` is the `ISO` column
(the group key); the remaining columns are nullable numeric cells. -/
structure DRow where
  iso : String
  year : Option Int
  totalDeaths : Option Int
  noInjured : Option Int
  noAffected : Option Int
  noHomeless : Option Int
  reconstructionCosts : Option Int
  totalDamages : Option Int
deriving DecidableEq, Repr

/-- One row of the GDP-per-capita dataframe (`Code`, `Year`, `GDP per capita`). -/
structure GRow where
  code : String
  year : Option Int
  gdpPerCapita : Option Int
deriving DecidableEq, Repr

/-- Embeds `pd.merge(natural_disaster_df, gdp_df, how='left', left_on=['ISO','Year'],
right_on=['Code','Year'])`: every disaster row, paired with each matching GDP
row, or with `none` when no GDP row matches. -/
def mergeLeftDG (nd : List DRow) (gdp : List GRow) : List (DRow × Option GRow) :=
  nd.flatMap (fun d =>
    let ms := gdp.filter (fun g => g.code == d.iso && g.year == d.year)
    if ms.isEmpty then [(d, none)] else ms.map (fun g => (d, some g)))

/-- The mask `new_df['Total Deaths'] > 5000`: comparison with NaN is `false`. -/
def deathGt5000 (d : Option Int) : Bool :=
  match d with
  | some v => decide (v > 5000)
  | none => false

/-- The `GDP per capita` cell of a merged row (NaN when the merge found no match). -/
def jGdp (p : DRow × Option GRow) : Option Int :=
  p.2.bind GRow.gdpPerCapita

/-- The derived table of `death_vs_gdp`: merge, filter `Total Deaths > 5000`,
project to `[['Total Deaths','GDP per capita']]`, `dropna()`. -/
def deathVsGdpTable (nd : List DRow) (gdp : List GRow) : List (Option Int × Option Int) :=
  let new1 := mergeLeftDG nd gdp
  let new2 := new1.filter (fun p => deathGt5000 p.1.totalDeaths)
  let new3 := new2.map (fun p => (p.1.totalDeaths, jGdp p))
  new3.filter (fun q => q.1.isSome && q.2.isSome)

/-- C4: the row set plotted by `death_vs_gdp` is exactly the subset of the
left join of the disaster table with the GDP table on `(ISO, Year) =
(Code, Year)` whose `Total Deaths` exceeds 5000 and whose `Total Deaths` and
`GDP per capita` are both non-missing (projected to those two columns). -/
theorem death_vs_gdp_row_set (nd : List DRow) (gdp : List GRow) :
    deathVsGdpTable nd gdp =
      ((mergeLeftDG nd gdp).filter (fun p =>
          deathGt5000 p.1.totalDeaths && p.1.totalDeaths.isSome && (jGdp p).isSome)).map
        (fun p => (p.1.totalDeaths, jGdp p)) := by
  unfold deathVsGdpTable
  rw [List.filter_map, List.filter_filter]
  refine congrArg _ (List.filter_congr fun p _ => ?_)
  cases h : p.1.totalDeaths with
  | none => simp [deathGt5000, h, Function.comp]
  | some v => simp [deathGt5000, h, Function.comp, Bool.and_comm, Bool.and_assoc]

/-- Embeds `df[(s <= df['Year']) & (df['Year'] <= e)]`: the year filter of the
dashboard callback; rows with NaN `Year` are dropped (NaN comparisons are
`false`). -/
def restrictYears (s e : Int) (rows : List DRow) : List DRow :=
  rows.filter (fun r => match r.year with
    | some y => decide (s ≤ y) && decide (y ≤ e)
    | none => false)

/-- The rows of one `groupby('ISO')` group. -/
def groupRows (rows : List DRow) (c : String) : List DRow :=
  rows.filter (fun r => r.iso == c)

/-- The `groupby('ISO')` group keys: distinct `ISO` values. -/
def groupKeys (rows : List DRow) : List String :=
  (rows.map DRow.iso).dedup

/-- Pandas `sum()` of a nullable column: add the non-missing values
(an all-missing column sums to 0). -/
def sumSkipna (f : DRow → Option Int) (rows : List DRow) : Int :=
  (rows.filterMap f).sum

/-- Pandas `count()` of a nullable column: number of non-missing values. -/
def countNonNull (f : DRow → Option Int) (rows : List DRow) : Int :=
  ((rows.filterMap f).length : Int)

/-- The `group_op` field of a `selector_opts` entry. -/
inductive GroupOp
  | sum
  | count
deriving DecidableEq, Repr

/-- The keys of `selector_opts` in `map_distribution_cases`. -/
inductive Metric
  | disasters
  | deaths
  | injured
  | affected
  | homeless
  | reconCosts
  | damages
deriving DecidableEq, Repr

/-- The `dep_var` field of a `selector_opts` entry: the source column the
aggregate of that metric is computed from. -/
def depVar : Metric → DRow → Option Int
  | .disasters => DRow.year
  | .deaths => DRow.totalDeaths
  | .injured => DRow.noInjured
  | .affected => DRow.noAffected
  | .homeless => DRow.noHomeless
  | .reconCosts => DRow.reconstructionCosts
  | .damages => DRow.totalDamages

/-- The `group_op` of each `selector_opts` entry: `'# Disasters'` uses
`count`, every other metric uses `sum`. -/
def groupOp : Metric → GroupOp
  | .disasters => .count
  | .deaths => .sum
  | .injured => .sum
  | .affected => .sum
  | .homeless => .sum
  | .reconCosts => .sum
  | .damages => .sum

/-- Embeds `grouped[dep_var].sum()` / `grouped[dep_var].count()` on one group. -/
def aggValue (m : Metric) (rows : List DRow) : Int :=
  match groupOp m with
  | .sum => sumSkipna (depVar m) rows
  | .count => countNonNull (depVar m) rows

/-- One row of the `country_var` dataframe of the callback: the aggregate of
every metric of `selector_opts` (all metrics are precomputed). -/
structure AggRow where
  disasters : Int
  deaths : Int
  injured : Int
  affected : Int
  homeless : Int
  reconCosts : Int
  damages : Int
deriving DecidableEq, Repr

/-- The `country_var` row of one group. -/
def aggRowOf (rows : List DRow) : AggRow where
  disasters := aggValue .disasters rows
  deaths := aggValue .deaths rows
  injured := aggValue .injured rows
  affected := aggValue .affected rows
  homeless := aggValue .homeless rows
  reconCosts := aggValue .reconCosts rows
  damages := aggValue .damages rows

/-- The renamed (`dep_var_2`) column of `country_var` holding a metric. -/
def metricCol : Metric → AggRow → Int
  | .disasters => AggRow.disasters
  | .deaths => AggRow.deaths
  | .injured => AggRow.injured
  | .affected => AggRow.affected
  | .homeless => AggRow.homeless
  | .reconCosts => AggRow.reconCosts
  | .damages => AggRow.damages

/-- The `country_var` dataframe of the callback `major_disaster_map`: filter
the disaster table to `[s, e]`, group by `ISO`, and aggregate every metric of
`selector_opts` per group (keyed by the group key, the `inde` column). -/
def countryVar (df : List DRow) (s e : Int) : List (String × AggRow) :=
  let restricted := restrictYears s e df
  (groupKeys restricted).map (fun c => (c, aggRowOf (groupRows restricted c)))

/-- Looking a key up in the graph of `g` over any key list yields `g` of the key. -/
theorem lookup_map_graph {β : Type} (g : String → β) (c : String) (v : β) :
    ∀ keys : List String, (keys.map (fun k => (k, g k))).lookup c = some v → v = g c := by
  intro keys
  induction keys with
  | nil => intro h; simp [List.lookup] at h
  | cons k ks ih =>
    intro h
    simp only [List.map_cons, List.lookup] at h
    by_cases hc : c = k
    · subst hc
      simp at h
      exact h.symm
    · rw [show (c == k) = false from by simpa using hc] at h
      exact ih h

/-- C1: with the date range fixed to `[2000, 2000]` and metric `'# Deaths'`,
the per-country aggregate of the recompute callback (the `deaths` column of
`country_var`) equals the sum of the `Total Deaths` column over exactly the
rows with `Year == 2000` and that `ISO` (the year filter keeps a row iff
`start <= Year <= end`, inclusive, so `[2000, 2000]` keeps `Year == 2000`). -/
theorem map_deaths_aggregate_2000 (df : List DRow) (c : String) (row : AggRow)
    (h : (countryVar df 2000 2000).lookup c = some row) :
    row.deaths =
      sumSkipna DRow.totalDeaths
        (df.filter (fun r => decide (r.year = some (2000 : Int) ∧ r.iso = c))) := by
  replace h : ((groupKeys (restrictYears 2000 2000 df)).map
      (fun k => (k, aggRowOf (groupRows (restrictYears 2000 2000 df) k)))).lookup c
        = some row := h
  have hrow : row = aggRowOf (groupRows (restrictYears 2000 2000 df) c) :=
    lookup_map_graph _ c row (groupKeys (restrictYears 2000 2000 df)) h
  rw [hrow]
  show sumSkipna DRow.totalDeaths (groupRows (restrictYears 2000 2000 df) c) = _
  unfold groupRows restrictYears sumSkipna
  rw [List.filter_filter]
  refine congrArg _ (congrArg _ (List.filter_congr fun r _ => ?_))
  cases hy : r.year with
  | none => simp
  | some y =>
    rw [Bool.eq_iff_iff]
    simp only [Bool.and_eq_true, decide_eq_true_eq, beq_iff_eq, Option.some.injEq]
    constructor
    · rintro ⟨h1, h2⟩
      exact ⟨by omega, h1⟩
    · rintro ⟨h1, h2⟩
      exact ⟨h2, by omega⟩

/-- A two-row concrete disaster table used to witness the 2000 aggregation. -/
def w1df : List DRow :=
  [⟨"AAA", some 2000, some 7, none, none, none, none, none⟩,
   ⟨"AAA", some 1999, some 100, none, none, none, none, none⟩]

/-- Witness for `map_deaths_aggregate_2000` at a concrete table. -/
theorem map_deaths_aggregate_2000_witness :
    (⟨1, 7, 0, 0, 0, 0, 0⟩ : AggRow).deaths =
      sumSkipna DRow.totalDeaths
        (w1df.filter (fun r => decide (r.year = some (2000 : Int) ∧ r.iso = "AAA"))) :=
  map_deaths_aggregate_2000 w1df "AAA" ⟨1, 7, 0, 0, 0, 0, 0⟩ (by decide)

/-- The descending comparison `sort_values(col, ascending=False)` sorts by:
`a` precedes `b` when `a`'s metric column is at least `b`'s. -/
def barGe (m : Metric) (a b : String × AggRow) : Prop :=
  metricCol m b.2 ≤ metricCol m a.2

instance (m : Metric) : DecidableRel (barGe m) :=
  fun _ _ => Int.decLe _ _

instance (m : Metric) : IsTotal (String × AggRow) (barGe m) :=
  ⟨fun a b => le_total (metricCol m b.2) (metricCol m a.2)⟩

instance (m : Metric) : IsTrans (String × AggRow) (barGe m) :=
  ⟨fun _ _ _ h1 h2 => le_trans h2 h1⟩

/-- Embeds `country_var.sort_values(dep_var_2, ascending=False)`: sort the per-country
table descending by the selected metric (pandas leaves tie order unspecified;
insertion sort is one admissible order). -/
def sortValuesDesc (m : Metric) (l : List (String × AggRow)) : List (String × AggRow) :=
  List.insertionSort (barGe m) l

/-- Embeds `.iloc[:10]` of the sorted per-country table: the rows of the bar chart. -/
def barRows (df : List DRow) (s e : Int) (m : Metric) : List (String × AggRow) :=
  (sortValuesDesc m (countryVar df s e)).take 10

/-- The `(inde, metric)` pairs the bar chart plots. -/
def barEntries (df : List DRow) (s e : Int) (m : Metric) : List (String × Int) :=
  (barRows df s e m).map (fun p => (p.1, metricCol m p.2))

/-- The plotted bar heights, in bar order. -/
def barValues (df : List DRow) (s e : Int) (m : Metric) : List Int :=
  (barRows df s e m).map (fun p => metricCol m p.2)

/-- Each value is at least the next one (weakly descending). -/
def descendingB : List Int → Bool
  | a :: b :: t => decide (b ≤ a) && descendingB (b :: t)
  | _ => true

/-- Each value is strictly greater than the next one. -/
def strictlyDescB : List Int → Bool
  | a :: b :: t => decide (b < a) && strictlyDescB (b :: t)
  | _ => true

/-- A list that is pairwise weakly descending satisfies `descendingB`. -/
theorem descendingB_of_pairwise :
    ∀ l : List Int, l.Pairwise (fun a b => b ≤ a) → descendingB l = true := by
  intro l
  induction l with
  | nil => intro _; rfl
  | cons a t ih =>
    intro h
    rw [List.pairwise_cons] at h
    obtain ⟨ha, ht⟩ := h
    cases t with
    | nil => rfl
    | cons b t2 =>
      show (decide (b ≤ a) && descendingB (b :: t2)) = true
      rw [ih ht]
      simp [ha b (by simp)]

/-- Two countries with equal `Total Deaths` sums in year 2000. -/
def c2df : List DRow :=
  [⟨"AAA", some 2000, some 5, none, none, none, none, none⟩,
   ⟨"BBB", some 2000, some 5, none, none, none, none, none⟩]

/-- C2 counterexample: with two countries tied at the same aggregate, the bar
chart of `map_distribution_cases` is NOT strictly descending, so the claim
(at most 10 entries, first 10 of the descending sort, strictly descending
values) is false as stated. -/
theorem bars_strictly_descending_cex :
    ¬((barValues c2df 2000 2000 Metric.deaths).length ≤ 10 ∧
      barRows c2df 2000 2000 Metric.deaths
        = (sortValuesDesc Metric.deaths (countryVar c2df 2000 2000)).take 10 ∧
      strictlyDescB (barValues c2df 2000 2000 Metric.deaths) = true) := by
  decide

/-- C2 amended: the bar chart contains at most 10 entries, obtained by sorting
the per-country table by the selected metric descending and taking the first
10 rows, and the plotted values are weakly descending (ties allowed). -/
theorem bars_top10_descending (df : List DRow) (s e : Int) (m : Metric) :
    barRows df s e m = (sortValuesDesc m (countryVar df s e)).take 10 ∧
    (barValues df s e m).length ≤ 10 ∧
    descendingB (barValues df s e m) = true := by
  refine ⟨rfl, ?_, ?_⟩
  · show (((sortValuesDesc m (countryVar df s e)).take 10).map _).length ≤ 10
    rw [List.length_map, List.length_take]
    exact min_le_left _ _
  · apply descendingB_of_pairwise
    have hs : (sortValuesDesc m (countryVar df s e)).Sorted (barGe m) :=
      List.sorted_insertionSort (barGe m) _
    have ht : (barRows df s e m).Pairwise (barGe m) :=
      List.Pairwise.sublist (List.take_sublist 10 _) hs
    exact List.pairwise_map.mpr ht

/-- One row of the `naturalearth_lowres` country-geometry table: the columns
the module uses (`iso_a3` join key and `name` hover label). -/
structure WRow where
  isoA3 : String
  name : String
deriving DecidableEq, Repr

/-- Embeds `world.merge(agg, left_on='iso_a3', right_on='inde', how='left')`: every
geometry row, paired with each matching aggregation row, or with `none`
(NaN-padded) when no aggregation row matches. -/
def mergeWorldLeft {β : Type} (world : List WRow) (agg : List (String × β)) :
    List (WRow × Option β) :=
  world.flatMap (fun w =>
    let ms := agg.filter (fun p => p.1 == w.isoA3)
    if ms.isEmpty then [(w, none)] else ms.map (fun p => (w, some p.2)))

/-- Embeds `.fillna(0)` applied to the merged table: a NaN aggregation cell becomes
the zero value `z`. -/
def fillnaWith {β : Type} (z : β) (l : List (WRow × Option β)) : List (WRow × β) :=
  l.map (fun p => (p.1, p.2.getD z))

/-- The all-zero `country_var` row produced by `.fillna(0)`. -/
def zeroAgg : AggRow :=
  ⟨0, 0, 0, 0, 0, 0, 0⟩

/-- Embeds `natural_disaster_df.groupby('ISO').count()['Year']` of
`major_disaster_distribution` (the `Year_2` column after the rename),
keyed by the group key (the `inde` column). -/
def countryCount (df : List DRow) : List (String × Int) :=
  (groupKeys df).map (fun c => (c, countNonNull DRow.year (groupRows df c)))

/-- The merged, zero-filled world table of `major_disaster_distribution`. -/
def major_disaster_distribution_table (world : List WRow) (df : List DRow) :
    List (WRow × Int) :=
  fillnaWith 0 (mergeWorldLeft world (countryCount df))

/-- The merged, zero-filled world table of the dashboard callback. -/
def mergedCases (world : List WRow) (df : List DRow) (s e : Int) :
    List (WRow × AggRow) :=
  fillnaWith zeroAgg (mergeWorldLeft world (countryVar df s e))

/-- Every geometry row reappears (with some cell) in the left merge. -/
theorem mem_mergeWorldLeft_self {β : Type} (world : List WRow) (agg : List (String × β))
    (w : WRow) (hw : w ∈ world) :
    ∃ ov, (w, ov) ∈ mergeWorldLeft world agg := by
  cases hfil : agg.filter (fun p => p.1 == w.isoA3) with
  | nil =>
    refine ⟨none, List.mem_flatMap.mpr ⟨w, hw, ?_⟩⟩
    simp [hfil]
  | cons p ps =>
    refine ⟨some p.2, List.mem_flatMap.mpr ⟨w, hw, ?_⟩⟩
    simp [hfil]

/-- A geometry row whose key matches no aggregation row only pairs with `none`. -/
theorem mergeWorldLeft_absent {β : Type} (world : List WRow) (agg : List (String × β))
    (w : WRow) (h : ∀ p ∈ agg, p.1 ≠ w.isoA3) :
    ∀ ov, (w, ov) ∈ mergeWorldLeft world agg → ov = none := by
  intro ov hmem
  obtain ⟨x, hx, hb⟩ := List.mem_flatMap.mp hmem
  cases hfil : agg.filter (fun p => p.1 == x.isoA3) with
  | nil =>
    rw [hfil] at hb
    simp at hb
    exact hb.2
  | cons p ps =>
    rw [hfil] at hb
    have hb2 : (w, ov) ∈ (p :: ps).map (fun q => (x, some q.2)) := by simpa using hb
    obtain ⟨q, hq, hqe⟩ := List.mem_map.mp hb2
    have hq2 : q ∈ agg.filter (fun r => r.1 == x.isoA3) := by rw [hfil]; exact hq
    have hq3 := List.mem_filter.mp hq2
    have hwx : x = w := congrArg Prod.fst hqe
    exfalso
    refine h q hq3.1 ?_
    have hqk := hq3.2
    rw [hwx] at hqk
    simpa using hqk

/-- Every geometry row appears in the zero-filled merged table. -/
theorem fillna_exists_of_mem {β : Type} (z : β) (world : List WRow)
    (agg : List (String × β)) (w : WRow) (hw : w ∈ world) :
    ∃ v, (w, v) ∈ fillnaWith z (mergeWorldLeft world agg) := by
  obtain ⟨ov, hov⟩ := mem_mergeWorldLeft_self world agg w hw
  exact ⟨ov.getD z, List.mem_map.mpr ⟨(w, ov), hov, rfl⟩⟩

/-- A geometry row whose key is absent from the aggregation only carries the
fill value in the zero-filled merged table. -/
theorem fillna_absent_eq {β : Type} (z : β) (world : List WRow)
    (agg : List (String × β)) (w : WRow) (h : w.isoA3 ∉ agg.map Prod.fst) :
    ∀ v, (w, v) ∈ fillnaWith z (mergeWorldLeft world agg) → v = z := by
  intro v hv
  obtain ⟨⟨w2, ov⟩, hmem, heq⟩ := List.mem_map.mp hv
  simp at heq
  obtain ⟨hw2, hovv⟩ := heq
  have habs : ∀ p ∈ agg, p.1 ≠ w.isoA3 := by
    intro p hp hc
    exact h (List.mem_map.mpr ⟨p, hp, hc⟩)
  rw [hw2] at hmem
  rw [← hovv, mergeWorldLeft_absent world agg w habs ov hmem]
  rfl

/-- C3: in both map builders the geometry join is a left join with the
geometry table primary: every country polygon row appears in the merged
output, and a polygon whose ISO code is absent from the aggregation carries
the value 0 for every metric column (`0` resp. the all-zero `AggRow`). -/
theorem geometry_left_join_zero_fill (world : List WRow) (df : List DRow) (s e : Int)
    (w : WRow) (hw : w ∈ world) :
    (∃ v, (w, v) ∈ major_disaster_distribution_table world df) ∧
    (w.isoA3 ∉ (countryCount df).map Prod.fst →
      ∀ v, (w, v) ∈ major_disaster_distribution_table world df → v = 0) ∧
    (∃ a, (w, a) ∈ mergedCases world df s e) ∧
    (w.isoA3 ∉ (countryVar df s e).map Prod.fst →
      ∀ a, (w, a) ∈ mergedCases world df s e → a = zeroAgg) :=
  ⟨fillna_exists_of_mem 0 world (countryCount df) w hw,
   fun habs => fillna_absent_eq 0 world (countryCount df) w habs,
   fillna_exists_of_mem zeroAgg world (countryVar df s e) w hw,
   fun habs => fillna_absent_eq zeroAgg world (countryVar df s e) w habs⟩

/-- The polygon row of the one-polygon witness geometry table. -/
def w3row : WRow :=
  ⟨"ZZZ", "Zland"⟩

/-- A one-polygon geometry table whose country is absent from `w1df`. -/
def w3world : List WRow :=
  [w3row]

/-- Witness for `geometry_left_join_zero_fill` at concrete tables. -/
theorem geometry_left_join_zero_fill_witness :
    (∃ v, (w3row, v) ∈ major_disaster_distribution_table w3world w1df) ∧
    (w3row.isoA3 ∉ (countryCount w1df).map Prod.fst →
      ∀ v, (w3row, v) ∈ major_disaster_distribution_table w3world w1df → v = 0) ∧
    (∃ a, (w3row, a) ∈ mergedCases w3world w1df 2000 2000) ∧
    (w3row.isoA3 ∉ (countryVar w1df 2000 2000).map Prod.fst →
      ∀ a, (w3row, a) ∈ mergedCases w3world w1df 2000 2000 → a = zeroAgg) :=
  geometry_left_join_zero_fill w3world w1df 2000 2000 w3row (by decide)

/-- Pandas `Series.min()` on a nullable column: minimum of the non-missing
values, NaN (`none`) for an empty or all-missing column. -/
def seriesMin (l : List (Option Int)) : Option Int :=
  match l.filterMap id with
  | [] => none
  | a :: t => some (t.foldl min a)

/-- Pandas `Series.max()` on a nullable column. -/
def seriesMax (l : List (Option Int)) : Option Int :=
  match l.filterMap id with
  | [] => none
  | a :: t => some (t.foldl max a)

/-- How an entry point terminates abnormally: an `AssertionError` from an
explicit `assert isinstance(...)` precondition, or an exception propagated
from an underlying library call (here: `dt.datetime` fed the NaN that
`Series.min()/max()` returns on an empty column). -/
inductive PErr
  | assertionError
  | libraryError
deriving DecidableEq, Repr

/-- The runtime type tag of an argument, as `isinstance` sees it. -/
inductive PyTy
  | dataFrame
  | pyBool
  | otherTy
deriving DecidableEq, Repr

/-- The composed dashboard returned by `map_distribution_cases`: the slider
bounds (`dt.datetime(Year.min(),1,1)` to `dt.datetime(Year.max()+1,1,1)`)
and the return form selected by `voila`. -/
structure DashWidget where
  sliderStart : Int
  sliderEnd : Int
  voila : Bool
deriving DecidableEq, Repr

/-- Embeds `death_vs_gdp(natural_disaster_df, gdp_df)`: the two `isinstance`
asserts, then the pure derivation of the plotted table. -/
def death_vs_gdp (t1 t2 : PyTy) (nd : List DRow) (gdp : List GRow) :
    Except PErr (List (Option Int × Option Int)) :=
  if t1 = PyTy.dataFrame then
    if t2 = PyTy.dataFrame then Except.ok (deathVsGdpTable nd gdp)
    else Except.error PErr.assertionError
  else Except.error PErr.assertionError

/-- Embeds `major_disaster_distribution(natural_disaster_df)`: the `isinstance`
assert, then the count aggregation merged onto the geometry table. -/
def major_disaster_distribution (t1 : PyTy) (world : List WRow) (df : List DRow) :
    Except PErr (List (WRow × Int)) :=
  if t1 = PyTy.dataFrame then Except.ok (major_disaster_distribution_table world df)
  else Except.error PErr.assertionError

/-- Embeds `map_distribution_cases(natural_disaster_df, voila)`: the two
`isinstance` asserts, then `dt.datetime(Year.min(),1,1)` and
`dt.datetime(Year.max()+1,1,1)` — which raise (a library `TypeError`) when
the `Year` column has no value — then the composed dashboard. -/
def map_distribution_cases (t1 t2 : PyTy) (df : List DRow) (voila : Bool) :
    Except PErr DashWidget :=
  if t1 = PyTy.dataFrame then
    if t2 = PyTy.pyBool then
      match seriesMin (df.map DRow.year), seriesMax (df.map DRow.year) with
      | some lo, some hi => Except.ok ⟨lo, hi + 1, voila⟩
      | some _, none => Except.error PErr.libraryError
      | none, _ => Except.error PErr.libraryError
    else Except.error PErr.assertionError
  else Except.error PErr.assertionError

/-- C5 counterexample: on an empty disaster table (zero rows, all expected
columns), `map_distribution_cases` does NOT complete: `Year.min()` is NaN and
`dt.datetime(NaN, 1, 1)` raises, so the claim that every entry point
completes without raising on an empty table is false. -/
theorem empty_table_cases_raises :
    map_distribution_cases PyTy.dataFrame PyTy.pyBool [] true
      = Except.error PErr.libraryError := by
  rfl

/-- C5 amended: an empty disaster table yields an empty aggregation in
`death_vs_gdp` and `major_disaster_distribution` (which complete), and inside
the dashboard callback a date range excluding every year yields an empty
per-country table and the zero value for every country polygon; but
`map_distribution_cases` itself raises on an empty table, because
`Year.min()`/`Year.max()` are NaN and `dt.datetime` rejects NaN. -/
theorem empty_table_and_empty_range (gdp : List GRow) (world : List WRow)
    (df : List DRow) (s e : Int)
    (h : ∀ r ∈ df, ∀ y : Int, r.year = some y → ¬(s ≤ y ∧ y ≤ e)) :
    deathVsGdpTable [] gdp = [] ∧
    death_vs_gdp PyTy.dataFrame PyTy.dataFrame [] gdp = Except.ok [] ∧
    countryCount [] = [] ∧
    major_disaster_distribution PyTy.dataFrame world []
      = Except.ok (world.map (fun w => (w, 0))) ∧
    countryVar df s e = [] ∧
    (∀ w ∈ world, (w, zeroAgg) ∈ mergedCases world df s e) ∧
    map_distribution_cases PyTy.dataFrame PyTy.pyBool [] true
      = Except.error PErr.libraryError := by
  have hres : restrictYears s e df = [] := by
    rw [restrictYears, List.filter_eq_nil_iff]
    intro r hr
    cases hy : r.year with
    | none => simp
    | some y =>
      simp only [Bool.and_eq_true, decide_eq_true_eq, not_and]
      intro h1 h2
      exact h r hr y hy ⟨h1, h2⟩
  have hcv : countryVar df s e = [] := by
    show (groupKeys (restrictYears s e df)).map _ = []
    rw [hres]
    rfl
  refine ⟨rfl, rfl, rfl, ?_, hcv, ?_, rfl⟩
  · show Except.ok (major_disaster_distribution_table world []) = _
    refine congrArg Except.ok ?_
    show fillnaWith 0 (mergeWorldLeft world (countryCount [])) = _
    show fillnaWith 0 (world.flatMap fun w => [(w, none)]) = _
    induction world with
    | nil => rfl
    | cons w ws ih =>
      simp only [List.flatMap_cons, List.map_cons] at *
      rw [show fillnaWith 0 ([(w, none)] ++ ws.flatMap fun w => [(w, none)])
            = (w, (0 : Int)) :: fillnaWith 0 (ws.flatMap fun w => [(w, none)]) from rfl, ih]
  · intro w hw
    have habs : w.isoA3 ∉ (countryVar df s e).map Prod.fst := by
      rw [hcv]
      simp
    obtain ⟨a, ha⟩ := fillna_exists_of_mem zeroAgg world (countryVar df s e) w hw
    have := fillna_absent_eq zeroAgg world (countryVar df s e) w habs a ha
    rw [← this]
    exact ha

/-- A one-row table whose single year lies outside `[2000, 2000]`. -/
def w5df : List DRow :=
  [⟨"AAA", some 1999, some 3, none, none, none, none, none⟩]

/-- Witness for `empty_table_and_empty_range` at concrete tables. -/
theorem empty_table_and_empty_range_witness :
    deathVsGdpTable [] [] = [] ∧
    death_vs_gdp PyTy.dataFrame PyTy.dataFrame [] [] = Except.ok [] ∧
    countryCount [] = [] ∧
    major_disaster_distribution PyTy.dataFrame w3world []
      = Except.ok (w3world.map (fun w => (w, 0))) ∧
    countryVar w5df 2000 2000 = [] ∧
    (∀ w ∈ w3world, (w, zeroAgg) ∈ mergedCases w3world w5df 2000 2000) ∧
    map_distribution_cases PyTy.dataFrame PyTy.pyBool [] true
      = Except.error PErr.libraryError :=
  empty_table_and_empty_range [] w3world w5df 2000 2000 (by decide)

/-- The function `filterMap` keeps as many elements as the `isSome` filter. -/
theorem length_filterMap_eq {α β : Type} (f : α → Option β) :
    ∀ l : List α, (l.filterMap f).length = (l.filter (fun a => (f a).isSome)).length := by
  intro l
  induction l with
  | nil => rfl
  | cons a t ih =>
    cases hfa : f a with
    | none => simpa [List.filterMap_cons, List.filter_cons, hfa] using ih
    | some b => simpa [List.filterMap_cons, List.filter_cons, hfa] using ih

/-- A one-row table whose `ISO` is populated but whose `Year` is missing. -/
def c6df : List DRow :=
  [⟨"AAA", none, none, none, none, none, none, none⟩]

/-- C6 counterexample: `major_disaster_distribution` aggregates with
`groupby('ISO').count()['Year']`, which counts non-missing `Year` cells, not
rows; on a table with one `"AAA"` row whose `Year` is NaN the per-country
value is 0 while the number of `"AAA"` rows is 1, so the claim is false as
stated. -/
theorem distribution_count_cex :
    (countryCount c6df).lookup "AAA" = some 0 ∧
    ((c6df.filter (fun r => r.iso == "AAA")).length : Int) = 1 ∧
    (countryCount c6df).lookup "AAA"
      ≠ some ((c6df.filter (fun r => r.iso == "AAA")).length : Int) := by
  decide

/-- C6 amended: the per-country value computed by
`major_disaster_distribution` equals the number of disaster rows with that
`ISO` and a non-missing `Year` (so it is the row count whenever `Year` is
populated everywhere), and a country present in the geometry table but
absent from the disaster table receives 0 in the merged output. -/
theorem distribution_count_nonmissing_year (df : List DRow) (world : List WRow)
    (c : String) (v : Int) (w : WRow) (u : Int)
    (h : (countryCount df).lookup c = some v)
    (hw : w ∈ world)
    (habs : w.isoA3 ∉ (countryCount df).map Prod.fst)
    (hu : (w, u) ∈ major_disaster_distribution_table world df) :
    v = ((df.filter (fun r => r.iso == c && r.year.isSome)).length : Int) ∧ u = 0 := by
  constructor
  · replace h : ((groupKeys df).map
        (fun k => (k, countNonNull DRow.year (groupRows df k)))).lookup c = some v := h
    rw [lookup_map_graph _ c v _ h]
    show (((df.filter (fun r => r.iso == c)).filterMap DRow.year).length : Int) = _
    rw [length_filterMap_eq DRow.year, List.filter_filter]
    refine congrArg _ (congrArg _ (List.filter_congr fun r _ => ?_))
    exact Bool.and_comm _ _
  · have _hw := hw
    exact fillna_absent_eq 0 world (countryCount df) w habs u hu

/-- Witness for `distribution_count_nonmissing_year` at concrete tables. -/
theorem distribution_count_nonmissing_year_witness :
    (2 : Int) = ((w1df.filter (fun r => r.iso == "AAA" && r.year.isSome)).length : Int) ∧
    (0 : Int) = 0 :=
  distribution_count_nonmissing_year w1df w3world "AAA" 2 w3row 0
    (by decide) (by decide) (by decide) (by decide)

/-- C7: each entry point raises `AssertionError` exactly when an argument
fails its `isinstance` precondition (`map_distribution_cases` also checks
`voila`); every other abnormal exit surfaces as a propagated library error,
never as the explicitly raised assertion. -/
theorem typecheck_is_only_explicit_raise (t1 t2 t3 t4 t5 : PyTy) (nd : List DRow)
    (gdp : List GRow) (world : List WRow) (df : List DRow) (voila : Bool) :
    (death_vs_gdp t1 t2 nd gdp = Except.error PErr.assertionError
       ↔ ¬(t1 = PyTy.dataFrame ∧ t2 = PyTy.dataFrame)) ∧
    (major_disaster_distribution t3 world df = Except.error PErr.assertionError
       ↔ t3 ≠ PyTy.dataFrame) ∧
    (map_distribution_cases t4 t5 df voila = Except.error PErr.assertionError
       ↔ ¬(t4 = PyTy.dataFrame ∧ t5 = PyTy.pyBool)) := by
  refine ⟨?_, ?_, ?_⟩
  · unfold death_vs_gdp
    by_cases h1 : t1 = PyTy.dataFrame <;> by_cases h2 : t2 = PyTy.dataFrame <;>
      simp [h1, h2]
  · unfold major_disaster_distribution
    by_cases h1 : t3 = PyTy.dataFrame <;> simp [h1]
  · unfold map_distribution_cases
    by_cases h1 : t4 = PyTy.dataFrame <;> by_cases h2 : t5 = PyTy.pyBool <;>
      simp only [h1, h2, if_true, if_false, ite_true, ite_false] <;>
      try simp
    cases hmin : seriesMin (df.map DRow.year) <;>
      cases hmax : seriesMax (df.map DRow.year) <;> simp

/-- The derived output of one invocation of the recompute callback
`major_disaster_map`: the zero-filled merged world table feeding the
choropleth and the `(inde, metric)` pairs feeding the bar chart. -/
def major_disaster_map (df : List DRow) (world : List WRow) (s e : Int) (m : Metric) :
    List (WRow × AggRow) × List (String × Int) :=
  (mergedCases world df s e, barEntries df s e m)

/-- Two successive invocations of `death_vs_gdp`'s derivation on the same inputs. -/
def deathVsGdpTwice (nd : List DRow) (gdp : List GRow) :
    List (Option Int × Option Int) × List (Option Int × Option Int) :=
  (deathVsGdpTable nd gdp, deathVsGdpTable nd gdp)

/-- Two successive invocations of `major_disaster_distribution`'s derivation. -/
def distributionTwice (world : List WRow) (df : List DRow) :
    List (WRow × Int) × List (WRow × Int) :=
  (major_disaster_distribution_table world df, major_disaster_distribution_table world df)

/-- Two successive invocations of the dashboard recompute callback. -/
def mapCallbackTwice (df : List DRow) (world : List WRow) (s e : Int) (m : Metric) :
    (List (WRow × AggRow) × List (String × Int)) ×
      (List (WRow × AggRow) × List (String × Int)) :=
  (major_disaster_map df world s e m, major_disaster_map df world s e m)

/-- C8: calling any reporter twice with identical inputs (and, for the
dashboard callback, an identical date range and metric) produces identical
derived tables — the derivations are functions of their inputs alone. -/
theorem reporters_idempotent (nd : List DRow) (gdp : List GRow) (world : List WRow)
    (df : List DRow) (s e : Int) (m : Metric) :
    (deathVsGdpTwice nd gdp).1 = (deathVsGdpTwice nd gdp).2 ∧
    (distributionTwice world df).1 = (distributionTwice world df).2 ∧
    (mapCallbackTwice df world s e m).1 = (mapCallbackTwice df world s e m).2 :=
  ⟨rfl, rfl, rfl⟩

/-- The dataframes an invocation can reach: the disaster table and GDP table
passed as arguments, and the geometry table read from disk; the callback
closure captures the disaster table by reference from this state. -/
structure PdState where
  naturalDisasterDf : List DRow
  gdpDf : List GRow
  worldGeo : List WRow
deriving DecidableEq, Repr

/-- Translates `death_vs_gdp`, line by line, threading the ambient dataframes: every
step (`pd.merge`, mask filter, column select, `dropna`) builds a new table
`new_df`; nothing assigns into the inputs. -/
def death_vs_gdp_exec (st : PdState) : PdState × List (Option Int × Option Int) :=
  let new1 := mergeLeftDG st.naturalDisasterDf st.gdpDf
  let new2 := new1.filter (fun p => deathGt5000 p.1.totalDeaths)
  let new3 := (new2.map (fun p => (p.1.totalDeaths, jGdp p))).filter
    (fun q => q.1.isSome && q.2.isSome)
  (st, new3)

/-- Translates `major_disaster_distribution`, threading the ambient dataframes: the
count, the rename/`inde` assignment and the merge all build derived tables
(`country_count`, `world`), never writing into the input. -/
def major_disaster_distribution_exec (st : PdState) : PdState × List (WRow × Int) :=
  let country_count := countryCount st.naturalDisasterDf
  let world2 := fillnaWith 0 (mergeWorldLeft st.worldGeo country_count)
  (st, world2)

/-- The recompute callback `major_disaster_map`, threading the ambient
dataframes it closes over: `restricted_df`, `country_var` (with its `inde`
column), the merged `world` and the sorted/truncated bar table are all fresh
derived tables. -/
def major_disaster_map_exec (st : PdState) (s e : Int) (m : Metric) :
    PdState × (List (WRow × AggRow) × List (String × Int)) :=
  let restricted := restrictYears s e st.naturalDisasterDf
  let country_var := (groupKeys restricted).map
    (fun c => (c, aggRowOf (groupRows restricted c)))
  let world2 := fillnaWith zeroAgg (mergeWorldLeft st.worldGeo country_var)
  let bar := ((List.insertionSort (barGe m) country_var).take 10).map
    (fun p => (p.1, metricCol m p.2))
  (st, (world2, bar))

/-- C9: no entry point and no recompute of the dashboard callback mutates the
input dataframes: the ambient state after any call equals the state before
it, and the callback's output is a pure function of that state. -/
theorem inputs_not_mutated (st : PdState) (s e : Int) (m : Metric) :
    (death_vs_gdp_exec st).1 = st ∧
    (major_disaster_distribution_exec st).1 = st ∧
    (major_disaster_map_exec st s e m).1 = st ∧
    (major_disaster_map_exec st s e m).2
      = major_disaster_map st.naturalDisasterDf st.worldGeo s e m :=
  ⟨rfl, rfl, rfl, rfl⟩

/-- The projection `metricCol` applied to `aggRowOf` gives exactly the group aggregate. -/
theorem metricCol_aggRowOf (m : Metric) (rows : List DRow) :
    metricCol m (aggRowOf rows) = aggValue m rows := by
  cases m <;> rfl

/-- A list of zeros sums to zero. -/
theorem sum_zero_of_all_zero : ∀ l : List Int, (∀ x ∈ l, x = 0) → l.sum = 0 := by
  intro l
  induction l with
  | nil => intro _; rfl
  | cons a t ih =>
    intro h
    rw [List.sum_cons, h a (by simp), ih (fun x hx => h x (by simp [hx]))]
    rfl

/-- C10: every sum-aggregated metric of `map_distribution_cases` skips
missing values: a country all of whose date-filtered rows have the source
field missing receives aggregate 0 — the same value, feeding both the map
and the bar chart, as a country whose rows all carry the value 0. -/
theorem sum_metric_skips_missing (df : List DRow) (s e : Int) (c : String)
    (m : Metric) (rows2 : List DRow)
    (hm : groupOp m = GroupOp.sum)
    (hall : ∀ r ∈ groupRows (restrictYears s e df) c, depVar m r = none)
    (hz : ∀ r ∈ rows2, depVar m r = some 0) :
    metricCol m (aggRowOf (groupRows (restrictYears s e df) c)) = 0 ∧
    metricCol m (aggRowOf rows2)
      = metricCol m (aggRowOf (groupRows (restrictYears s e df) c)) := by
  have h1 : metricCol m (aggRowOf (groupRows (restrictYears s e df) c)) = 0 := by
    rw [metricCol_aggRowOf]
    unfold aggValue
    rw [hm]
    show sumSkipna (depVar m) (groupRows (restrictYears s e df) c) = 0
    unfold sumSkipna
    rw [List.filterMap_eq_nil_iff.mpr hall]
    rfl
  refine ⟨h1, ?_⟩
  rw [h1, metricCol_aggRowOf]
  unfold aggValue
  rw [hm]
  show sumSkipna (depVar m) rows2 = 0
  unfold sumSkipna
  refine sum_zero_of_all_zero _ (fun x hx => ?_)
  obtain ⟨r, hr, hfr⟩ := List.mem_filterMap.mp hx
  rw [hz r hr] at hfr
  exact (Option.some.injEq _ _).mp hfr.symm

/-- A one-row table whose only 2000 row has NaN `Total Deaths`. -/
def c10df : List DRow :=
  [⟨"AAA", some 2000, none, none, none, none, none, none⟩]

/-- A one-row table whose only row has `Total Deaths` exactly 0. -/
def c10zero : List DRow :=
  [⟨"BBB", some 2000, some 0, none, none, none, none, none⟩]

/-- Witness for `sum_metric_skips_missing` at concrete tables. -/
theorem sum_metric_skips_missing_witness :
    metricCol Metric.deaths (aggRowOf (groupRows (restrictYears 2000 2000 c10df) "AAA")) = 0 ∧
    metricCol Metric.deaths (aggRowOf c10zero)
      = metricCol Metric.deaths (aggRowOf (groupRows (restrictYears 2000 2000 c10df) "AAA")) :=
  sum_metric_skips_missing c10df 2000 2000 "AAA" Metric.deaths c10zero
    rfl (by decide) (by decide)
